import Mathlib

/-!
Verification of the image-processing task orchestration core of the
clothing-app backend (src/modules/api/src/backend).

The embedding below follows the source files:
  * workflows/image_processing.py  — the two activities and the
    ImageProcessingWorkflow.run method;
  * couchbase/collections/images.py — ImagesDoc and ImagesCollection.upsert;
  * routes/images.py — the submit / status / result route handlers.

The Temporal runtime that executes an activity under a RetryPolicy is not
part of the repository; its retry loop is modelled from the spec (section 4.1),
which re-specifies it as the Step Executor with identical observable
semantics.  Machine times are modelled as rational numbers of seconds.
-/

/-- Status of a recorded step outcome (spec section 3, StepOutcome.status). -/
inductive StepStatus where
  | succeeded
  | failed
  deriving DecidableEq, Repr

/-- StepOutcome (spec section 3): the record of one finished step. -/
structure StepOutcome where
  step_name : String
  attempts_used : Nat
  status : StepStatus
  result : Option String
  error_message : Option String
  deriving DecidableEq, Repr

/-- RetryPolicy as constructed in ImageProcessingWorkflow.run
(temporalio.common.RetryPolicy).  Intervals are in seconds. -/
structure RetryPolicy where
  maximum_attempts : Nat
  initial_interval : ℚ
  maximum_interval : ℚ
  backoff_coefficient : ℚ
  deriving DecidableEq, Repr

/-- The retry policy attached to step 1 in image_processing.py lines 98-103:
3 attempts, 1s initial interval, 10s cap, coefficient 2.0. -/
def storeMetadataPolicy : RetryPolicy :=
  { maximum_attempts := 3, initial_interval := 1, maximum_interval := 10,
    backoff_coefficient := 2 }

/-- The retry policy attached to step 2 in image_processing.py lines 114-119:
3 attempts, 2s initial interval, 20s cap, coefficient 2.0. -/
def similaritySearchPolicy : RetryPolicy :=
  { maximum_attempts := 3, initial_interval := 2, maximum_interval := 20,
    backoff_coefficient := 2 }

/-- Modelled from the spec: the backoff wait after failed attempt number
counter, spec section 4.1 step 4:
min(initial_interval * backoff_coefficient^(counter-1), max_interval). -/
def backoffWait (p : RetryPolicy) (counter : Nat) : ℚ :=
  min (p.initial_interval * p.backoff_coefficient ^ (counter - 1)) p.maximum_interval

/-- Observable trace of executing one unit of work under a RetryPolicy:
the final value (last error message when every attempt failed), the number
of attempts performed, and the backoff waits between consecutive attempts. -/
structure ExecTrace (α : Type) where
  value : Except String α
  attempts_used : Nat
  waits : List ℚ

/-- Modelled from the spec: the Step Executor retry loop of spec section 4.1
(the Temporal runtime behind workflow.execute_activity, which is not part of
this repository).  An attempt behaviour is a function from the attempt
number (starting at 1) to success or an error message; a timeout is one kind
of failed attempt.  fuel is the number of attempts still allowed, so that
counter < max_attempts exactly when fuel is not exhausted after this attempt. -/
def retryFrom (p : RetryPolicy) (act : Nat → Except String α) :
    Nat → Nat → ExecTrace α
  | _, 0 => { value := Except.error "retry budget empty", attempts_used := 0, waits := [] }
  | counter, fuel + 1 =>
    match act counter with
    | Except.ok a => { value := Except.ok a, attempts_used := counter, waits := [] }
    | Except.error msg =>
      if fuel = 0 then
        { value := Except.error msg, attempts_used := counter, waits := [] }
      else
        let rest := retryFrom p act (counter + 1) fuel
        { value := rest.value, attempts_used := rest.attempts_used,
          waits := backoffWait p counter :: rest.waits }

/-- Modelled from the spec: execute one unit of work under a RetryPolicy,
starting with attempt counter 1 and a budget of maximum_attempts attempts
(spec section 4.1 steps 1-5). -/
def execute_activity (p : RetryPolicy) (act : Nat → Except String α) : ExecTrace α :=
  retryFrom p act 1 p.maximum_attempts

/-- A Python value appearing in the first argument position of
workflow.execute_activity: either a module-level activity function, or some
other object such as a bool, which is not a valid activity reference. -/
inductive PyCallable where
  | activityFn (name : String)
  | pyBool (b : Bool)
  deriving DecidableEq, Repr

/-- Dynamic dispatch of workflow.execute_activity on its first argument,
together with the step outcome recorded for the task.  Given an activity
function it runs the retry loop and records one StepOutcome; given a bool
(not a str and not callable) the Temporal SDK raises TypeError before any
activity attempt is scheduled, so no attempt runs and no outcome is
recorded. -/
def execute_activity_dyn (ref : PyCallable) (p : RetryPolicy)
    (impl : Nat → Except String String) (step_name : String) :
    ExecTrace String × List StepOutcome :=
  match ref with
  | PyCallable.pyBool _ =>
    ({ value := Except.error "TypeError: Activity must be a str or callable",
       attempts_used := 0, waits := [] }, [])
  | PyCallable.activityFn _ =>
    let t := execute_activity p impl
    (t,
     [match t.value with
      | Except.ok r =>
        { step_name := step_name, attempts_used := t.attempts_used,
          status := StepStatus.succeeded, result := some r, error_message := none }
      | Except.error e =>
        { step_name := step_name, attempts_used := t.attempts_used,
          status := StepStatus.failed, result := none, error_message := some e }])

/-- Behaviour of the two external collaborators, per attempt.  The store
behaviour receives the arguments passed in image_processing.py line 96
(url, title or None, description or None, tags); the search behaviour
receives the arguments of line 112 (image_id, url).  Each returns, for a
given attempt number, success or an error message. -/
structure ActivityEnv where
  store_attempts : String → Option String → Option String → List String →
    Nat → Except String String
  search_attempts : String → String → Nat → Except String String

/-- Python expression x or None for a string x: None when x is empty. -/
def strOrNone (s : String) : Option String :=
  if s = "" then none else some s

/-- The dict returned by ImageProcessingWorkflow.run (image_processing.py
lines 127-132 on success, 137-142 on failure).  The success dict carries no
error key and the failure dict carries no image_id key; absent keys are
modelled as none. -/
structure WorkflowResult where
  image_id : Option String
  url : String
  similarity_search_completed : Bool
  status : String
  error : Option String
  deriving DecidableEq, Repr

/-- Result of one workflow run together with the step outcomes recorded in
its history (the steps sequence of the spec TaskState). -/
structure RunOutput where
  result : WorkflowResult
  steps : List StepOutcome
  deriving DecidableEq, Repr

/-- ImageProcessingWorkflow.run (image_processing.py lines 78-142).

Inside run the parameter run_similarity_search (a bool) shadows the
module-level activity function of the same name, so the step-2 call
workflow.execute_activity(run_similarity_search, ...) at lines 110-120
receives the bool — hence PyCallable.pyBool below, mirroring Python name
resolution.  The TypeError this provokes is raised inside the inner try of
lines 109-125 and swallowed by its except clause, so similarity_completed
keeps its initial value False and the run continues to the success dict. -/
def ImageProcessingWorkflow.run (env : ActivityEnv) (url : String)
    (title : String) (description : String) (tags : Option (List String))
    (run_similarity_search : Bool) : RunOutput :=
  let tags0 := tags.getD []
  let step1 := execute_activity storeMetadataPolicy
    (env.store_attempts url (strOrNone title) (strOrNone description) tags0)
  match step1.value with
  | Except.error e =>
    { result :=
        { image_id := none, url := url, similarity_search_completed := false,
          status := "failed", error := some e },
      steps :=
        [{ step_name := "store-metadata", attempts_used := step1.attempts_used,
           status := StepStatus.failed, result := none, error_message := some e }] }
  | Except.ok image_id =>
    let step1out : StepOutcome :=
      { step_name := "store-metadata", attempts_used := step1.attempts_used,
        status := StepStatus.succeeded, result := some image_id, error_message := none }
    let step2res : Bool × List StepOutcome :=
      if run_similarity_search then
        let t := execute_activity_dyn (PyCallable.pyBool run_similarity_search)
          similaritySearchPolicy (env.search_attempts image_id url)
          "run-similarity-search"
        match t.1.value with
        | Except.ok _ => (true, t.2)
        | Except.error _ => (false, t.2)
      else (false, [])
    { result :=
        { image_id := some image_id, url := url,
          similarity_search_completed := step2res.1,
          status := "completed", error := none },
      steps := step1out :: step2res.2 }

/-- ImagesDoc (couchbase/collections/images.py lines 20-28), restricted to
the fields the claims mention; the generated uuid4 id is supplied by the
caller as a string.  The created_at and updated_at timestamps play no role
in any claim and are omitted. -/
structure ImagesDoc where
  id : String
  url : String
  title : Option String
  description : Option String
  tags : List String
  deriving DecidableEq, Repr

/-- State of the images keyspace in Couchbase: document key to document. -/
abbrev ImagesStore := List (String × ImagesDoc)

/-- ImagesCollection.upsert (images.py lines 93-97): upsert_document stores
the document under the key str(doc.id), replacing any document already held
under that key, and the method returns the document. -/
def ImagesCollection.upsert (store : ImagesStore) (doc : ImagesDoc) :
    ImagesStore × ImagesDoc :=
  ((doc.id, doc) :: store.filter (fun kv => kv.1 != doc.id), doc)

/-- store_image_metadata (image_processing.py lines 26-40): the activity
builds an ImagesDoc from its arguments (gen_id stands for the uuid4 the
default factory generates) and returns str(image_doc.id).  Its body contains
no Couchbase call — in particular no ImagesCollection.upsert — so the store
it runs against is returned unchanged. -/
def store_image_metadata (store : ImagesStore) (gen_id : String)
    (url : String) (title : Option String) (description : Option String)
    (tags : List String) : ImagesStore × String :=
  let image_doc : ImagesDoc :=
    { id := gen_id, url := url, title := title, description := description,
      tags := tags }
  (store, image_doc.id)

/-- Response of the submit route, reduced to what the claims mention: the
HTTP status code, whether a workflow was actually started, and the detail
or body text. -/
structure SubmitResponse where
  status_code : Nat
  workflow_started : Bool
  detail : String
  deriving DecidableEq, Repr

/-- Pydantic validation of CreateImageRequest.url (routes/images.py lines
20-25, field type HttpUrl): the URL must carry an http or https scheme and
a nonempty remainder.  FastAPI runs this before the handler body; failure
is reported as a validation error (HTTP 422) and no handler code runs. -/
def is_valid_http_url (s : String) : Bool :=
  (List.isPrefixOf "http://".data s.data && decide (7 < s.data.length)) ||
    (List.isPrefixOf "https://".data s.data && decide (8 < s.data.length))

/-- Attributes of the class uuid.UUID of the Python standard library, as
referenced by routes/images.py line 204.  The function uuid4 is a
module-level function of the uuid module; it is not an attribute of the
UUID class, so it does not appear here. -/
def uuidClassAttrs : List String :=
  ["bytes", "bytes_le", "clock_seq", "clock_seq_hi_variant", "clock_seq_low",
   "fields", "hex", "int", "node", "time", "time_hi_version", "time_low",
   "time_mid", "urn", "variant", "version"]

/-- Python attribute lookup on the class uuid.UUID: a missing attribute
raises AttributeError. -/
def uuidClassGetattr (name : String) : Except String String :=
  if name ∈ uuidClassAttrs then Except.ok name
  else Except.error ("AttributeError: type object UUID has no attribute " ++ name)

/-- process_image_with_workflow handler body (routes/images.py lines
184-234), after pydantic validation has accepted the request.  Line 204
evaluates UUID.uuid4() to mint the workflow id; the attribute lookup is the
first expression of the try block, and its AttributeError is caught by the
except clause of lines 229-234, which answers HTTP 500.  The ok branch —
unreachable, since uuid4 is not an attribute of the UUID class — stands for
minting the id and starting the workflow with HTTP 202. -/
def process_image_with_workflow (temporal_configured : Bool) : SubmitResponse :=
  if temporal_configured then
    match uuidClassGetattr "uuid4" with
    | Except.error e =>
      { status_code := 500, workflow_started := false,
        detail := "Failed to start image processing workflow: " ++ e }
    | Except.ok v =>
      { status_code := 202, workflow_started := true,
        detail := "image-processing-" ++ v }
  else
    { status_code := 503, workflow_started := false,
      detail := "Temporal is not configured" }

/-- The submit operation as a caller sees it: pydantic validation of the
request body first (HTTP 422, nothing created, when it fails), then the
process_image_with_workflow handler. -/
def submit (temporal_configured : Bool) (url : String) : SubmitResponse :=
  if is_valid_http_url url then process_image_with_workflow temporal_configured
  else
    { status_code := 422, workflow_started := false,
      detail := "InvalidInput: value is not a valid URL" }

/-- What the Temporal server knows about a workflow id when a query route
runs: no such workflow, or a workflow that has finished with a result.
(A still-running workflow is not observable by these handlers: the result
route awaits completion with no timeout, and the status route fails before
contacting the server, as proved below.) -/
inductive WorkflowLookup where
  | absent
  | finished (r : WorkflowResult)
  deriving DecidableEq, Repr

/-- Response of the two query routes: HTTP status code, the workflow result
when one is returned, and the error detail when there is one. -/
structure QueryResponse where
  status_code : Nat
  result : Option WorkflowResult
  detail : Option String
  deriving DecidableEq, Repr

/-- get_workflow_result (routes/images.py lines 270-298): the handler gets a
handle for the id and awaits handle.result() with no timeout.  For an
unknown id the await raises (the server reports the workflow as not found);
the except clause of lines 293-298 turns any exception into HTTP 500.  For
a finished workflow the result dict is returned with HTTP 200. -/
def get_workflow_result (temporal_configured : Bool)
    (reg : String → WorkflowLookup) (workflow_id : String) : QueryResponse :=
  if temporal_configured then
    match reg workflow_id with
    | WorkflowLookup.absent =>
      { status_code := 500, result := none,
        detail := some "Failed to get workflow result: workflow not found" }
    | WorkflowLookup.finished r =>
      { status_code := 200, result := some r, detail := none }
  else
    { status_code := 503, result := none, detail := some "Temporal is not configured" }

/-- Attributes defined on the class ImageProcessingWorkflow
(image_processing.py lines 66-142): only the run method.  No get_state
query method — nor any other state-tracking member — is defined. -/
def imageProcessingWorkflowClassAttrs : List String := ["run"]

/-- Python attribute lookup on the class ImageProcessingWorkflow. -/
def workflowClassGetattr (name : String) : Except String String :=
  if name ∈ imageProcessingWorkflowClassAttrs then Except.ok name
  else
    Except.error
      ("AttributeError: type object ImageProcessingWorkflow has no attribute " ++ name)

/-- get_workflow_status (routes/images.py lines 237-267): inside the try
block the handler builds the call handle.query(ImageProcessingWorkflow.get_state)
at line 255; evaluating the attribute ImageProcessingWorkflow.get_state
raises AttributeError before the server is contacted, for every workflow
id, and the except clause of lines 262-267 answers HTTP 500.  The ok branch
is unreachable since the class defines no get_state. -/
def get_workflow_status (temporal_configured : Bool)
    (_reg : String → WorkflowLookup) (_workflow_id : String) : QueryResponse :=
  if temporal_configured then
    match workflowClassGetattr "get_state" with
    | Except.error e =>
      { status_code := 500, result := none,
        detail := some ("Failed to get workflow status: " ++ e) }
    | Except.ok _ => { status_code := 200, result := none, detail := none }
  else
    { status_code := 503, result := none, detail := some "Temporal is not configured" }

/-- Generic shape of a run of the Step Executor over a permanently failing
unit of work: every allowed attempt is performed, the backoff wait after
failed attempt number k is backoffWait p k, and the last error message is
surfaced. -/
theorem retryFrom_always_fails (p : RetryPolicy) (act : Nat → Except String α)
    (m : String) (h : ∀ k, act k = Except.error m) :
    ∀ fuel c, 1 ≤ fuel →
      retryFrom p act c fuel =
        { value := Except.error m, attempts_used := c + fuel - 1,
          waits := (List.range (fuel - 1)).map (fun i => backoffWait p (c + i)) } := by
  intro fuel
  induction fuel with
  | zero => intro c hc; omega
  | succ f ih =>
    intro c _
    unfold retryFrom
    rw [h c]
    by_cases hf : f = 0
    · subst hf
      simp
    · have hf1 : 1 ≤ f := Nat.one_le_iff_ne_zero.mpr hf
      simp only [hf, if_false, ih (c + 1) hf1]
      have harith : c + 1 + f - 1 = c + (f + 1) - 1 := by omega
      have hlist :
          backoffWait p c ::
              (List.range (f - 1)).map (fun i => backoffWait p (c + 1 + i)) =
            (List.range (f + 1 - 1)).map (fun i => backoffWait p (c + i)) := by
        have hs : f = (f - 1) + 1 := by omega
        calc backoffWait p c ::
              (List.range (f - 1)).map (fun i => backoffWait p (c + 1 + i))
            = (0 :: (List.range (f - 1)).map Nat.succ).map
                (fun i => backoffWait p (c + i)) := by
              simp [List.map_map, Function.comp]
              intro a _
              congr 1
              omega
          _ = (List.range (f + 1 - 1)).map (fun i => backoffWait p (c + i)) := by
              rw [← List.range_succ_eq_map]
              have hr : f - 1 + 1 = f + 1 - 1 := by omega
              rw [hr]
      rw [harith, hlist]

/-- C5: for every RetryPolicy with maximum_attempts = n (n >= 1), running a
permanently failing unit of work under the Step Executor performs exactly n
attempts, waits min(initial_interval * backoff_coefficient^(k-1),
maximum_interval) after failed attempt k for each k = 1..n-1, surfaces the
failure message, and the recorded StepOutcome is Failed with
attempts_used = n. -/
theorem C5_retry_budget_exhaustion (p : RetryPolicy) (n : Nat)
    (act : Nat → Except String String) (m : String) (step_name : String)
    (hp : p.maximum_attempts = n) (hn : 1 ≤ n)
    (h : ∀ k, act k = Except.error m) :
    execute_activity p act =
      { value := Except.error m, attempts_used := n,
        waits := (List.range (n - 1)).map (fun i =>
          min (p.initial_interval * p.backoff_coefficient ^ i) p.maximum_interval) } ∧
    execute_activity_dyn (PyCallable.activityFn "f") p act step_name =
      (execute_activity p act,
       [{ step_name := step_name, attempts_used := n,
          status := StepStatus.failed, result := none, error_message := some m }]) := by
  have hmain :
      execute_activity p act =
        { value := Except.error m, attempts_used := n,
          waits := (List.range (n - 1)).map (fun i =>
            min (p.initial_interval * p.backoff_coefficient ^ i) p.maximum_interval) } := by
    unfold execute_activity
    rw [hp, retryFrom_always_fails p act m h n 1 hn]
    have h1 : 1 + n - 1 = n := by omega
    rw [h1]
    have hw :
        (List.range (n - 1)).map (fun i => backoffWait p (1 + i)) =
          (List.range (n - 1)).map (fun i =>
            min (p.initial_interval * p.backoff_coefficient ^ i) p.maximum_interval) := by
      apply List.map_congr_left
      intro i _
      unfold backoffWait
      have hi : 1 + i - 1 = i := by omega
      rw [hi]
    rw [hw]
  refine ⟨hmain, ?_⟩
  simp only [execute_activity_dyn, hmain]

/-- Witness for C5 at the similarity-search retry policy of the source
(3 attempts, 2s initial interval, 20s cap, coefficient 2.0) and a search
collaborator that fails on every attempt. -/
theorem C5_retry_budget_exhaustion_witness :
    execute_activity similaritySearchPolicy
      (fun _ => (Except.error "search down" : Except String String)) =
      { value := Except.error "search down", attempts_used := 3,
        waits := (List.range 2).map (fun i =>
          min ((2 : ℚ) * 2 ^ i) 20) } :=
  (C5_retry_budget_exhaustion similaritySearchPolicy 3
    (fun _ => Except.error "search down") "search down" "similarity-search"
    rfl (by omega) (fun _ => rfl)).1

/-- C10: for every input and every collaborator behaviour, the dict returned
by ImageProcessingWorkflow.run has similarity_search_completed = false.  The
boolean parameter run_similarity_search shadows the module-level activity of
the same name, the step-2 execute_activity call receives the bool, the
TypeError is swallowed by the inner try of lines 109-125, and
similarity_completed is never set to True. -/
theorem C10_similarity_never_completes (env : ActivityEnv)
    (url title description : String) (tags : Option (List String)) (rss : Bool) :
    (ImageProcessingWorkflow.run env url title description tags
        rss).result.similarity_search_completed = false := by
  simp only [ImageProcessingWorkflow.run]
  cases hv : (execute_activity storeMetadataPolicy
      (env.store_attempts url (strOrNone title) (strOrNone description)
        (tags.getD []))).value with
  | error e => simp [hv]
  | ok i => cases rss <;> simp [hv, execute_activity_dyn]

/-- C1: for every task in which step store-metadata fails after exhausting
its retry budget (3 attempts under the policy of lines 98-103), the run ends
with status failed, error set to the failure message,
similarity_search_completed = false, exactly one step outcome (Failed,
attempts_used = 3), and the similarity-search collaborator is never
consulted: the output is unchanged under any search behaviour. -/
theorem C1_store_failure_fails_task (env : ActivityEnv)
    (url title description : String) (tags : Option (List String)) (rss : Bool)
    (m : String)
    (h : ∀ u t d tg k, env.store_attempts u t d tg k = Except.error m) :
    ImageProcessingWorkflow.run env url title description tags rss =
      { result :=
          { image_id := none, url := url, similarity_search_completed := false,
            status := "failed", error := some m },
        steps :=
          [{ step_name := "store-metadata", attempts_used := 3,
             status := StepStatus.failed, result := none,
             error_message := some m }] } ∧
    ∀ g, ImageProcessingWorkflow.run { env with search_attempts := g }
        url title description tags rss =
      ImageProcessingWorkflow.run env url title description tags rss := by
  have htrace :
      execute_activity storeMetadataPolicy
        (env.store_attempts url (strOrNone title) (strOrNone description)
          (tags.getD [])) =
      { value := Except.error m, attempts_used := 3,
        waits := (List.range 2).map (fun i => backoffWait storeMetadataPolicy (1 + i)) } := by
    exact retryFrom_always_fails storeMetadataPolicy
      (env.store_attempts url (strOrNone title) (strOrNone description)
        (tags.getD [])) m (fun k => h _ _ _ _ k) 3 1 (by omega)
  constructor
  · simp only [ImageProcessingWorkflow.run]
    rw [htrace]
  · intro g
    have hsa : ({ env with search_attempts := g } : ActivityEnv).store_attempts
        = env.store_attempts := rfl
    simp only [ImageProcessingWorkflow.run, hsa]
    rw [htrace]

/-- Environment in which the storage collaborator fails on every attempt
and the search collaborator would succeed (spec Scenario C). -/
def alwaysFailingStoreEnv : ActivityEnv :=
  { store_attempts := fun _ _ _ _ _ => Except.error "store down",
    search_attempts := fun _ _ _ => Except.ok "results" }

/-- Witness for C1 at a concrete submission against alwaysFailingStoreEnv. -/
theorem C1_store_failure_fails_task_witness :
    ImageProcessingWorkflow.run alwaysFailingStoreEnv "https://x/a.jpg" "" "" none true =
      { result :=
          { image_id := none, url := "https://x/a.jpg",
            similarity_search_completed := false, status := "failed",
            error := some "store down" },
        steps :=
          [{ step_name := "store-metadata", attempts_used := 3,
             status := StepStatus.failed, result := none,
             error_message := some "store down" }] } :=
  (C1_store_failure_fails_task alwaysFailingStoreEnv "https://x/a.jpg" "" "" none true
    "store down" (fun _ _ _ _ _ => rfl)).1

/-- C9: for every task in which step store-metadata succeeds and the caller
did not request similarity search, the run ends with status completed,
similarity_search_completed = false, and exactly one step outcome — the
Succeeded store-metadata outcome; nothing is appended for the skipped
search step. -/
theorem C9_search_disabled_single_step (env : ActivityEnv)
    (url title description : String) (tags : Option (List String))
    (image_id : String)
    (h : (execute_activity storeMetadataPolicy
        (env.store_attempts url (strOrNone title) (strOrNone description)
          (tags.getD []))).value = Except.ok image_id) :
    ImageProcessingWorkflow.run env url title description tags false =
      { result :=
          { image_id := some image_id, url := url,
            similarity_search_completed := false, status := "completed",
            error := none },
        steps :=
          [{ step_name := "store-metadata",
             attempts_used := (execute_activity storeMetadataPolicy
               (env.store_attempts url (strOrNone title) (strOrNone description)
                 (tags.getD []))).attempts_used,
             status := StepStatus.succeeded, result := some image_id,
             error_message := none }] } := by
  simp only [ImageProcessingWorkflow.run]
  split
  · rename_i e heq
    rw [h] at heq
    cases heq
  · rename_i i heq
    rw [h] at heq
    injection heq with hi
    subst hi
    simp

/-- Environment in which the storage collaborator succeeds on the first
attempt (spec Scenario A uses it with similarity search disabled). -/
def healthyStoreEnv : ActivityEnv :=
  { store_attempts := fun _ _ _ _ _ => Except.ok "id-1",
    search_attempts := fun _ _ _ => Except.ok "results" }

/-- Witness for C9 at a concrete submission with search disabled. -/
theorem C9_search_disabled_single_step_witness :
    ImageProcessingWorkflow.run healthyStoreEnv "https://x/a.jpg" "" "" none false =
      { result :=
          { image_id := some "id-1", url := "https://x/a.jpg",
            similarity_search_completed := false, status := "completed",
            error := none },
        steps :=
          [{ step_name := "store-metadata", attempts_used := 1,
             status := StepStatus.succeeded, result := some "id-1",
             error_message := none }] } :=
  C9_search_disabled_single_step healthyStoreEnv "https://x/a.jpg" "" "" none
    "id-1" rfl

/-- Environment of spec Scenario B: storage succeeds immediately, the search
collaborator fails on every attempt. -/
def degradedSearchEnv : ActivityEnv :=
  { store_attempts := fun _ _ _ _ _ => Except.ok "id-1",
    search_attempts := fun _ _ _ => Except.error "search down" }

/-- C2, evaluated on the code at the claimed scenario (store-metadata
succeeds, the search collaborator would fail on every attempt, similarity
search requested): the run does end completed with
similarity_search_completed = false and no surfaced error, but the steps
sequence has exactly ONE entry, not two — the shadowed boolean is passed to
execute_activity, the TypeError is swallowed, and the similarity-search
step is never scheduled, so its Failed StepOutcome is never recorded. -/
theorem C2_degraded_run_records_one_step :
    ImageProcessingWorkflow.run degradedSearchEnv "https://x/a.jpg" "" "" none true =
      { result :=
          { image_id := some "id-1", url := "https://x/a.jpg",
            similarity_search_completed := false, status := "completed",
            error := none },
        steps :=
          [{ step_name := "store-metadata", attempts_used := 1,
             status := StepStatus.succeeded, result := some "id-1",
             error_message := none }] } ∧
    (ImageProcessingWorkflow.run degradedSearchEnv "https://x/a.jpg" "" "" none
        true).steps.length = 1 :=
  ⟨rfl, rfl⟩

/-- Environment of spec Scenario A with search requested: both collaborators
would succeed on the first attempt. -/
def healthySearchEnv : ActivityEnv :=
  { store_attempts := fun _ _ _ _ _ => Except.ok "id-1",
    search_attempts := fun _ _ _ => Except.ok "results" }

/-- C3, evaluated on the code: with similarity search requested, store
succeeded and a search collaborator that would succeed, the run still ends
with similarity_search_completed = false and the only recorded step is
store-metadata; moreover the output is identical under EVERY search
behaviour, so the similarity-search activity is never invoked with the
stored image id and url (nor with anything else). -/
theorem C3_search_step_never_invoked :
    ImageProcessingWorkflow.run healthySearchEnv "https://x/a.jpg" "" "" none true =
      { result :=
          { image_id := some "id-1", url := "https://x/a.jpg",
            similarity_search_completed := false, status := "completed",
            error := none },
        steps :=
          [{ step_name := "store-metadata", attempts_used := 1,
             status := StepStatus.succeeded, result := some "id-1",
             error_message := none }] } ∧
    ∀ g, ImageProcessingWorkflow.run { healthySearchEnv with search_attempts := g }
        "https://x/a.jpg" "" "" none true =
      ImageProcessingWorkflow.run healthySearchEnv "https://x/a.jpg" "" "" none true :=
  ⟨rfl, fun _ => rfl⟩

/-- C4, evaluated on the code: store_image_metadata returns the derived
record id, but it persists NOTHING — the images store it runs against is
returned unchanged for every input, because the activity body contains no
call to the storage collaborator.  The second conjunct records the nearby
truth the claim leans on: ImagesCollection.upsert itself does have
idempotent upsert semantics, so repeating it is safe — the activity just
never calls it. -/
theorem C4_store_metadata_persists_nothing :
    (∀ (store : ImagesStore) (gen_id url : String)
       (title description : Option String) (tags : List String),
       (store_image_metadata store gen_id url title description tags).1 = store ∧
       (store_image_metadata store gen_id url title description tags).2 = gen_id) ∧
    (∀ (store : ImagesStore) (doc : ImagesDoc),
       ImagesCollection.upsert (ImagesCollection.upsert store doc).1 doc =
         ImagesCollection.upsert store doc) := by
  constructor
  · intro store gen_id url title description tags
    exact ⟨rfl, rfl⟩
  · intro store doc
    unfold ImagesCollection.upsert
    simp [List.filter_filter]

/-- C6: the submit route never returns a task identifier.  For every request
URL, the handler starts no workflow and never answers 202: pydantic
validation can reject the body with 422 before any state exists, and every
well-formed request reaches line 204, where UUID.uuid4() raises
AttributeError (uuid4 is not an attribute of the UUID class) and the except
clause answers HTTP 500. -/
theorem C6_submit_never_starts_workflow (url : String) :
    (submit true url).workflow_started = false ∧
    (submit true url).status_code ≠ 202 ∧
    (is_valid_http_url url = true →
      submit true url =
        { status_code := 500, workflow_started := false,
          detail := "Failed to start image processing workflow: AttributeError: type object UUID has no attribute uuid4" }) := by
  have hu : uuidClassGetattr "uuid4" =
      Except.error "AttributeError: type object UUID has no attribute uuid4" := by
    rfl
  by_cases hv : is_valid_http_url url = true
  · refine ⟨?_, ?_, ?_⟩ <;>
      simp [submit, process_image_with_workflow, hv, hu]
  · refine ⟨?_, ?_, ?_⟩ <;>
      simp [submit, process_image_with_workflow, hv]

/-- Witness for C6 at the concrete valid request URL of spec Scenario A. -/
theorem C6_submit_never_starts_workflow_witness :
    submit true "https://x/a.jpg" =
      { status_code := 500, workflow_started := false,
        detail := "Failed to start image processing workflow: AttributeError: type object UUID has no attribute uuid4" } :=
  (C6_submit_never_starts_workflow "https://x/a.jpg").2.2 (by decide)

/-- C7 counterexample: get_result on an unknown task id answers HTTP 500
with a generic failure detail, not NotFound (404) — the except clause of
the route converts the not-found error from the server into a 500. -/
theorem C7_unknown_id_counterexample :
    (get_workflow_result true (fun _ => WorkflowLookup.absent)
        "no-such-task").status_code = 500 ∧
    (get_workflow_result true (fun _ => WorkflowLookup.absent)
        "no-such-task").status_code ≠ 404 :=
  ⟨rfl, by decide⟩

/-- C7 amended: get_result waits for the workflow with no timeout (so there
is no StillRunning outcome) and returns the final result with HTTP 200 once
the task is terminal; an unknown task id surfaces as a generic HTTP 500
internal error, not as NotFound. -/
theorem C7_result_route_behaviour (reg : String → WorkflowLookup)
    (workflow_id : String) :
    (reg workflow_id = WorkflowLookup.absent →
      get_workflow_result true reg workflow_id =
        { status_code := 500, result := none,
          detail := some "Failed to get workflow result: workflow not found" }) ∧
    (∀ r, reg workflow_id = WorkflowLookup.finished r →
      get_workflow_result true reg workflow_id =
        { status_code := 200, result := some r, detail := none }) := by
  constructor
  · intro h
    simp [get_workflow_result, h]
  · intro r h
    simp [get_workflow_result, h]

/-- Witness for C7 amended: a finished workflow is returned with HTTP 200,
and on a second registry the unknown id gives the HTTP 500 branch. -/
theorem C7_result_route_behaviour_witness :
    get_workflow_result true
        (fun _ => WorkflowLookup.finished
          { image_id := some "id-1", url := "https://x/a.jpg",
            similarity_search_completed := false, status := "completed",
            error := none }) "w1" =
      { status_code := 200,
        result := some
          { image_id := some "id-1", url := "https://x/a.jpg",
            similarity_search_completed := false, status := "completed",
            error := none },
        detail := none } :=
  (C7_result_route_behaviour
    (fun _ => WorkflowLookup.finished
      { image_id := some "id-1", url := "https://x/a.jpg",
        similarity_search_completed := false, status := "completed",
        error := none }) "w1").2 _ rfl

/-- C8: the status route can never return a snapshot, and it does not
distinguish unknown ids: for EVERY registry and every workflow id it
answers HTTP 500, because line 255 evaluates
ImageProcessingWorkflow.get_state and the workflow class defines no
get_state attribute (nor any state snapshot to return), so AttributeError
is raised before the server is consulted. -/
theorem C8_status_route_always_errors (reg : String → WorkflowLookup)
    (workflow_id : String) :
    get_workflow_status true reg workflow_id =
      { status_code := 500, result := none,
        detail := some "Failed to get workflow status: AttributeError: type object ImageProcessingWorkflow has no attribute get_state" } ∧
    (get_workflow_status true reg workflow_id).status_code ≠ 404 := by
  refine ⟨rfl, ?_⟩
  have h1 : (get_workflow_status true reg workflow_id).status_code = 500 := rfl
  rw [h1]
  omega

/-- Witness for C8 at a concrete registry and workflow id. -/
theorem C8_status_route_always_errors_witness :
    get_workflow_status true (fun _ => WorkflowLookup.absent) "w2" =
      { status_code := 500, result := none,
        detail := some "Failed to get workflow status: AttributeError: type object ImageProcessingWorkflow has no attribute get_state" } :=
  (C8_status_route_always_errors (fun _ => WorkflowLookup.absent) "w2").1
